import Mathlib

/-!
Shallow embedding of the two command-line tools of this repository:

* `azure_foundry_agent_inference.py` — invokes an existing agent through a
  thread/message/run protocol and flattens the listed messages
  (`make_agent_inference_request`, `list_agents`, `main`);
* `azure_foundry_inference.py` — issues a single chat completion
  (`make_inference_request`, `list_models`, `main`).

The remote service is modelled as a record of response functions
(`AgentService`, `CompletionService`); each embedded function returns the
printed lines, the trace of remote calls it issued, and either the produced
value or the propagated error message.  Python attribute-presence checks
(`hasattr`) are modelled with `Option` and a dedicated inductive for the
two-level `content.text.value` check; Python list truthiness is modelled
with `List.isEmpty`.
-/

namespace AgentTool

/-- The `text` attribute of a content fragment as seen through the two
`hasattr` checks of `azure_foundry_agent_inference.py` line 93: absent
entirely, present without a `value` attribute, or carrying a string value. -/
inductive TextAttr where
  | absent : TextAttr
  | noValue : TextAttr
  | value : String → TextAttr
  deriving DecidableEq, Repr

/-- One element of a remote message's `content` list. -/
structure Fragment where
  text : TextAttr
  deriving DecidableEq, Repr

/-- A message returned by the remote listing call.  `content = none` models a
message object lacking the `content` attribute. -/
structure Msg where
  role : String
  content : Option (List Fragment)
  deriving DecidableEq, Repr

/-- A thread object returned by `client.agents.threads.create()`. -/
structure Thread where
  id : String
  deriving DecidableEq, Repr

/-- A run object returned by `create_and_process`; `id = none` models a run
object lacking the `id` attribute (the `hasattr(run, 'id')` check). -/
structure Run where
  id : Option String
  deriving DecidableEq, Repr

/-- An agent object returned by `client.agents.list_agents()`; `none` fields
model absent attributes (the `hasattr` checks of lines 133-134). -/
structure Agent where
  id : String
  name : Option String
  description : Option String
  deriving DecidableEq, Repr

/-- One entry of the list built by `list_agents`. -/
structure AgentInfo where
  id : String
  name : String
  description : String
  deriving DecidableEq, Repr

/-- A normalized message, as built into `result["messages"]`. -/
structure NormMsg where
  role : String
  content : List String
  deriving DecidableEq, Repr

/-- The dictionary returned by `make_agent_inference_request`. -/
structure AgentResult where
  thread_id : String
  run_id : Option String
  messages : List NormMsg
  agent_response : String
  deriving DecidableEq, Repr

/-- One element of the outbound `content` list posted with the user message. -/
structure OutContent where
  type : String
  text : String
  deriving DecidableEq, Repr

/-- A remote call issued by the agent tool, with the arguments that tie each
call to the result of the previous one. -/
inductive RemoteCall where
  | createThread : RemoteCall
  | createMessage : String → String → List OutContent → RemoteCall
  | createRun : String → String → RemoteCall
  | listMessages : String → RemoteCall
  | listAgentsCall : RemoteCall
  deriving DecidableEq, Repr

/-- The remote agent service: the outcome of client construction and of each
remote call, as functions of the arguments the script passes. -/
structure AgentService where
  mkClient : String → Except String Unit
  threadsCreate : Except String Thread
  messagesCreate : String → String → List OutContent → Except String Unit
  runsCreateAndProcess : String → String → Except String Run
  messagesList : String → Except String (List Msg)
  agentsList : Except String (List Agent)

/-- The text value of a fragment when both `hasattr` checks of line 93
succeed, `none` otherwise. -/
def fragmentText (c : Fragment) : Option String :=
  match c.text with
  | TextAttr.value v => some v
  | _ => none

/-- The inner loop of lines 92-94: append `content.text.value` for every
fragment passing both `hasattr` checks. -/
def normalizeContent (cs : List Fragment) : List String :=
  cs.foldl (fun acc c =>
    match c.text with
    | TextAttr.value v => acc ++ [v]
    | _ => acc) []

/-- One step of the message loop of lines 85-100, acting on the accumulated
`result["messages"]` list and `agent_responses` list. -/
def msgStep (acc : List NormMsg × List String) (msg : Msg) :
    List NormMsg × List String :=
  match msg.content with
  | none => (acc.1 ++ [{ role := msg.role, content := [] }], acc.2)
  | some cs =>
    if cs.isEmpty then
      (acc.1 ++ [{ role := msg.role, content := [] }], acc.2)
    else
      let contentList := normalizeContent cs
      let responses :=
        if msg.role == "assistant" && !contentList.isEmpty then
          acc.2 ++ contentList
        else acc.2
      (acc.1 ++ [{ role := msg.role, content := contentList }], responses)

/-- The newline join of Python's `"\n".join`. -/
def joinNl : List String → String
  | [] => ""
  | [s] => s
  | s :: rest => s ++ "\n" ++ joinNl rest

/-- Lines 77-103: build the result dictionary from the thread id, the run
object and the listed messages. -/
def buildAgentResult (thread_id : String) (run : Run) (messages : List Msg) :
    AgentResult :=
  let st := messages.foldl msgStep ([], [])
  { thread_id := thread_id
    run_id := run.id
    messages := st.1
    agent_response := if st.2.isEmpty then "" else joinNl st.2 }

/-- A line printed by either tool, or a JSON dump of a result structure
(kept structured rather than serialized). -/
inductive Output where
  | text : String → Output
  | jsonAgent : AgentResult → Output
  | jsonAgents : List AgentInfo → Output
  deriving DecidableEq, Repr

/-- The error line `print(f"Error: {e}")`. -/
def errLine (e : String) : String := "Error: " ++ e

/-- `create_agent_client` (lines 16-37): construct the client, printing and
re-raising on failure. -/
def create_agent_client (svc : AgentService) (endpoint : String) :
    List Output × Except String Unit :=
  match svc.mkClient endpoint with
  | Except.error e => ([Output.text ("Error creating client: " ++ e)], Except.error e)
  | Except.ok _ => ([], Except.ok ())

/-- The outbound content list of line 63. -/
def outContent (prompt : String) : List OutContent :=
  [{ type := "text", text := prompt }]

/-- `make_agent_inference_request` (lines 40-109): create client, thread,
user message, run, list messages, and build the result; any failure prints
`Error: ...` and propagates. -/
def make_agent_inference_request (svc : AgentService)
    (endpoint agent_id prompt : String) :
    List Output × List RemoteCall × Except String AgentResult :=
  match create_agent_client svc endpoint with
  | (out, Except.error e) =>
    (out ++ [Output.text (errLine e)], [], Except.error e)
  | (out, Except.ok _) =>
    match svc.threadsCreate with
    | Except.error e =>
      (out ++ [Output.text (errLine e)], [RemoteCall.createThread], Except.error e)
    | Except.ok thread =>
      match svc.messagesCreate thread.id "user" (outContent prompt) with
      | Except.error e =>
        (out ++ [Output.text (errLine e)],
         [RemoteCall.createThread,
          RemoteCall.createMessage thread.id "user" (outContent prompt)],
         Except.error e)
      | Except.ok _ =>
        match svc.runsCreateAndProcess thread.id agent_id with
        | Except.error e =>
          (out ++ [Output.text (errLine e)],
           [RemoteCall.createThread,
            RemoteCall.createMessage thread.id "user" (outContent prompt),
            RemoteCall.createRun thread.id agent_id],
           Except.error e)
        | Except.ok run =>
          match svc.messagesList thread.id with
          | Except.error e =>
            (out ++ [Output.text (errLine e)],
             [RemoteCall.createThread,
              RemoteCall.createMessage thread.id "user" (outContent prompt),
              RemoteCall.createRun thread.id agent_id,
              RemoteCall.listMessages thread.id],
             Except.error e)
          | Except.ok messages =>
            (out,
             [RemoteCall.createThread,
              RemoteCall.createMessage thread.id "user" (outContent prompt),
              RemoteCall.createRun thread.id agent_id,
              RemoteCall.listMessages thread.id],
             Except.ok (buildAgentResult thread.id run messages))

/-- The defaulting of lines 131-135: `hasattr` fallbacks for `name` and
`description`. -/
def normalizeAgent (agent : Agent) : AgentInfo :=
  { id := agent.id
    name := match agent.name with
      | some n => n
      | none => "Unknown"
    description := match agent.description with
      | some d => d
      | none => "" }

/-- `list_agents` (lines 112-142): create the client, list the agents and
build the info list; any failure prints `Error: ...` and propagates. -/
def list_agents (svc : AgentService) (endpoint : String) :
    List Output × List RemoteCall × Except String (List AgentInfo) :=
  match create_agent_client svc endpoint with
  | (out, Except.error e) =>
    (out ++ [Output.text (errLine e)], [], Except.error e)
  | (out, Except.ok _) =>
    match svc.agentsList with
    | Except.error e =>
      (out ++ [Output.text (errLine e)], [RemoteCall.listAgentsCall], Except.error e)
    | Except.ok agents_list =>
      (out, [RemoteCall.listAgentsCall],
       Except.ok (agents_list.foldl (fun acc agent => acc ++ [normalizeAgent agent]) []))

/-- The parsed command-line arguments of the agent tool. -/
structure AgentArgs where
  endpoint : String
  agent_id : String
  prompt : String
  list_agents : Bool
  deriving DecidableEq, Repr

/-- The listing lines of lines 179-182. -/
def agentListingLines (agents : List AgentInfo) : List Output :=
  agents.foldl (fun acc agent =>
    acc ++ [Output.text ("- " ++ agent.name ++ " (ID: " ++ agent.id ++ ")")]
        ++ (if agent.description ≠ "" then
              [Output.text ("  Description: " ++ agent.description)]
            else [])) []

/-- `main` of the agent tool (lines 145-207): exit status, printed output and
trace of remote calls. -/
def agent_main (svc : AgentService) (a : AgentArgs) :
    Nat × List Output × List RemoteCall :=
  if a.list_agents then
    match list_agents svc a.endpoint with
    | (out, tr, Except.error e) =>
      (1, Output.text "Fetching available agents..." :: out ++ [Output.text (errLine e)], tr)
    | (out, tr, Except.ok agents) =>
      (0, Output.text "Fetching available agents..." :: out
            ++ [Output.text "\nAvailable agents:"] ++ agentListingLines agents, tr)
  else
    let hdr := [Output.text ("Invoking agent: " ++ a.agent_id),
                Output.text ("Prompt: " ++ a.prompt),
                Output.text (String.mk (List.replicate 50 '-'))]
    match make_agent_inference_request svc a.endpoint a.agent_id a.prompt with
    | (out, tr, Except.error e) =>
      (1, hdr ++ out ++ [Output.text (errLine e)], tr)
    | (out, tr, Except.ok response) =>
      (0, hdr ++ out ++ [Output.text "Response:", Output.jsonAgent response]
            ++ (if response.agent_response ≠ "" then
                  [Output.text "\nAgent Response:", Output.text response.agent_response]
                else []), tr)

/-- Spec-side characterization of one normalized message: the role, and the
text values of exactly the fragments carrying one. -/
def normMsgOf (m : Msg) : NormMsg :=
  { role := m.role, content := (m.content.getD []).filterMap fragmentText }

/-- Spec-side characterization: every text fragment value found in messages
whose role equals "assistant", in encounter order. -/
def assistantFragments : List Msg → List String
  | [] => []
  | m :: rest =>
    (if m.role == "assistant" then (m.content.getD []).filterMap fragmentText else [])
      ++ assistantFragments rest

/-- Split a character list on the newline character. -/
def splitChars : List Char → List (List Char)
  | [] => [[]]
  | c :: rest =>
    if c = '\n' then [] :: splitChars rest
    else
      match splitChars rest with
      | [] => [[c]]
      | l :: ls => (c :: l) :: ls

/-- The lines of a string, splitting on the newline character. -/
def split_nl (s : String) : List String := (splitChars s.data).map String.mk

/-- The four-call sequence of the agent protocol, for the thread id obtained
in its first step. -/
def canonicalCalls (tid agent_id prompt : String) : List RemoteCall :=
  [RemoteCall.createThread,
   RemoteCall.createMessage tid "user" (outContent prompt),
   RemoteCall.createRun tid agent_id,
   RemoteCall.listMessages tid]

/-- The error message of the first failing step of the agent sequence
(client construction or a remote call), `none` when every step succeeds. -/
def agentCallError (svc : AgentService) (endpoint agent_id prompt : String) :
    Option String :=
  match svc.mkClient endpoint with
  | Except.error e => some e
  | Except.ok _ =>
    match svc.threadsCreate with
    | Except.error e => some e
    | Except.ok thread =>
      match svc.messagesCreate thread.id "user" (outContent prompt) with
      | Except.error e => some e
      | Except.ok _ =>
        match svc.runsCreateAndProcess thread.id agent_id with
        | Except.error e => some e
        | Except.ok _ =>
          match svc.messagesList thread.id with
          | Except.error e => some e
          | Except.ok _ => none

/-- The error message of the first failing step of the agent tool's listing
mode (client construction or the agents-listing call), `none` when both
succeed. -/
def agentListError (svc : AgentService) (endpoint : String) : Option String :=
  match svc.mkClient endpoint with
  | Except.error e => some e
  | Except.ok _ =>
    match svc.agentsList with
    | Except.error e => some e
    | Except.ok _ => none

/-- Concrete listed messages used to evaluate the theorems. -/
def wMsgs : List Msg :=
  [{ role := "user", content := some [{ text := TextAttr.value "hi" }] },
   { role := "assistant",
     content := some [{ text := TextAttr.value "hello" }, { text := TextAttr.absent }] }]

/-- A concrete service on which every call succeeds. -/
def wAgentService : AgentService :=
  { mkClient := fun _ => Except.ok ()
    threadsCreate := Except.ok { id := "t1" }
    messagesCreate := fun _ _ _ => Except.ok ()
    runsCreateAndProcess := fun _ _ => Except.ok { id := some "r1" }
    messagesList := fun _ => Except.ok wMsgs
    agentsList := Except.ok [{ id := "a1", name := none, description := none }]
  }

/-- A concrete service on which client construction fails. -/
def wFailAgentService : AgentService :=
  { mkClient := fun _ => Except.error "boom"
    threadsCreate := Except.error "boom"
    messagesCreate := fun _ _ _ => Except.error "boom"
    runsCreateAndProcess := fun _ _ => Except.error "boom"
    messagesList := fun _ => Except.error "boom"
    agentsList := Except.error "boom"
  }

/-- An assistant message whose single fragment value spans two lines. -/
def cexMsg : Msg :=
  { role := "assistant", content := some [{ text := TextAttr.value "a\nb" }] }

/-- An assistant message with no text-valued fragment. -/
def wEmptyAssistant : Msg :=
  { role := "assistant", content := some [{ text := TextAttr.noValue }] }

/-- Concrete agent-tool arguments with the listing flag set. -/
def wArgsListTrue : AgentArgs :=
  { endpoint := "E", agent_id := "A", prompt := "hi", list_agents := true }

/-- Concrete agent-tool arguments with the listing flag unset. -/
def wArgsListFalse : AgentArgs :=
  { endpoint := "E", agent_id := "A", prompt := "hi", list_agents := false }

end AgentTool

namespace DirectTool

/-- One entry of the `messages` list of a chat completion request. -/
structure ChatMessage where
  role : String
  content : String
  deriving DecidableEq, Repr

/-- The chat completion request issued by `client.chat.completions.create`
(lines 47-52). -/
structure ChatRequest where
  model : String
  messages : List ChatMessage
  max_tokens : Int
  temperature : Rat
  deriving DecidableEq, Repr

/-- The `message` of one choice of the remote response. -/
structure ChoiceMessage where
  role : String
  content : String
  deriving DecidableEq, Repr

/-- One choice of the remote response, and also one entry of the normalized
`choices` list (both have the shape `{message: {role, content}}`). -/
structure Choice where
  message : ChoiceMessage
  deriving DecidableEq, Repr

/-- The remote chat completion response. -/
structure ChatResponse where
  id : String
  model : String
  choices : List Choice
  deriving DecidableEq, Repr

/-- The dictionary returned by `make_inference_request` (lines 55-68). -/
structure InfResult where
  id : String
  model : String
  choices : List Choice
  deriving DecidableEq, Repr

/-- One entry of the placeholder list returned by `list_models`. -/
structure ModelInfo where
  name : String
  model : String
  deriving DecidableEq, Repr

/-- The remote completion service: the outcome of `AzureOpenAI` client
construction (as a function of api key and endpoint) and of a completion
call (as a function of the request). -/
structure CompletionService where
  mkClient : String → String → Except String Unit
  complete : ChatRequest → Except String ChatResponse

/-- A line printed by the direct tool, or a JSON dump of its result. -/
inductive DOutput where
  | text : String → DOutput
  | jsonResult : InfResult → DOutput
  deriving DecidableEq, Repr

/-- The error line `print(f"Error: {e}")` of the direct tool. -/
def derrLine (e : String) : String := "Error: " ++ e

/-- `make_inference_request` (lines 15-74): construct the client, issue one
chat completion and flatten the response; any failure prints `Error: ...`
and propagates.  Returns printed lines, the list of completion requests
issued, and the result. -/
def make_inference_request (svc : CompletionService)
    (endpoint api_key deployment_name prompt : String)
    (max_tokens : Int) (temperature : Rat) :
    List DOutput × List ChatRequest × Except String InfResult :=
  match svc.mkClient api_key endpoint with
  | Except.error e => ([DOutput.text (derrLine e)], [], Except.error e)
  | Except.ok _ =>
    let messages : List ChatMessage := [{ role := "user", content := prompt }]
    let req : ChatRequest :=
      { model := deployment_name, messages := messages,
        max_tokens := max_tokens, temperature := temperature }
    match svc.complete req with
    | Except.error e => ([DOutput.text (derrLine e)], [req], Except.error e)
    | Except.ok response =>
      ([], [req],
       Except.ok
         { id := response.id
           model := response.model
           choices := response.choices.foldl (fun acc choice =>
             acc ++ [{ message := { role := choice.message.role,
                                    content := choice.message.content } }]) [] })

/-- `list_models` (lines 77-102): construct the client and return the fixed
placeholder list; no completion request is ever issued. -/
def list_models (svc : CompletionService) (endpoint api_key : String) :
    List DOutput × List ChatRequest × Except String (List ModelInfo) :=
  match svc.mkClient api_key endpoint with
  | Except.error e => ([DOutput.text (derrLine e)], [], Except.error e)
  | Except.ok _ =>
    ([], [],
     Except.ok [{ name := "gpt-4", model := "gpt-4" },
                { name := "gpt-3.5-turbo", model := "gpt-3.5-turbo" }])

/-- The parsed command-line arguments of the direct tool. -/
structure DirectArgs where
  endpoint : String
  api_key : String
  model : String
  prompt : String
  max_tokens : Int
  temperature : Rat
  list_models : Bool
  deriving DecidableEq, Repr

/-- The listing lines of lines 155-156. -/
def modelListingLines (models : List ModelInfo) : List DOutput :=
  models.foldl (fun acc m =>
    acc ++ [DOutput.text ("- " ++ m.name ++ " (" ++ m.model ++ ")")]) []

/-- `main` of the direct tool (lines 105-186): exit status, printed output
and the list of completion requests issued. -/
def direct_main (svc : CompletionService) (a : DirectArgs) :
    Nat × List DOutput × List ChatRequest :=
  if a.list_models then
    match list_models svc a.endpoint a.api_key with
    | (out, tr, Except.error e) =>
      (1, DOutput.text "Fetching available models..." :: out ++ [DOutput.text (derrLine e)], tr)
    | (out, tr, Except.ok models) =>
      (0, DOutput.text "Fetching available models..." :: out
            ++ [DOutput.text "\nAvailable models:"] ++ modelListingLines models, tr)
  else
    let hdr := [DOutput.text ("Making inference request with model: " ++ a.model),
                DOutput.text ("Prompt: " ++ a.prompt),
                DOutput.text (String.mk (List.replicate 50 '-'))]
    match make_inference_request svc a.endpoint a.api_key a.model a.prompt
            a.max_tokens a.temperature with
    | (out, tr, Except.error e) =>
      (1, hdr ++ out ++ [DOutput.text (derrLine e)], tr)
    | (out, tr, Except.ok response) =>
      let generated_text :=
        match response.choices with
        | [] => ""
        | choice :: _ => choice.message.content
      (0, hdr ++ out ++ [DOutput.text "Response:", DOutput.jsonResult response]
            ++ (if generated_text ≠ "" then
                  [DOutput.text "\nGenerated text:", DOutput.text generated_text]
                else []), tr)

/-- The single chat completion request constructed from the arguments
(lines 39-52). -/
def mkRequest (deployment_name prompt : String) (max_tokens : Int)
    (temperature : Rat) : ChatRequest :=
  { model := deployment_name
    messages := [{ role := "user", content := prompt }]
    max_tokens := max_tokens
    temperature := temperature }

/-- The error message of the first failing step of the direct tool (client
construction or the completion call), `none` when both succeed. -/
def directCallError (svc : CompletionService)
    (endpoint api_key deployment_name prompt : String)
    (max_tokens : Int) (temperature : Rat) : Option String :=
  match svc.mkClient api_key endpoint with
  | Except.error e => some e
  | Except.ok _ =>
    match svc.complete (mkRequest deployment_name prompt max_tokens temperature) with
    | Except.error e => some e
    | Except.ok _ => none

/-- The error message of the failing step of the direct tool's listing mode
(client construction; the fixed list itself cannot fail), `none` on
success. -/
def directListError (svc : CompletionService) (endpoint api_key : String) :
    Option String :=
  match svc.mkClient api_key endpoint with
  | Except.error e => some e
  | Except.ok _ => none

/-- A concrete remote response used to evaluate the theorems. -/
def wResponse : ChatResponse :=
  { id := "resp1", model := "gpt-4",
    choices := [{ message := { role := "assistant", content := "pong" } }] }

/-- A concrete service on which every call succeeds, answering `wResponse`. -/
def wCompletionService : CompletionService :=
  { mkClient := fun _ _ => Except.ok ()
    complete := fun _ => Except.ok wResponse }

/-- A concrete service on which client construction fails. -/
def wFailCompletionService : CompletionService :=
  { mkClient := fun _ _ => Except.error "down"
    complete := fun _ => Except.error "down" }

/-- Concrete direct-tool arguments with the listing flag set. -/
def wArgsModelsTrue : DirectArgs :=
  { endpoint := "E", api_key := "K", model := "gpt-4", prompt := "ping",
    max_tokens := 5, temperature := 0, list_models := true }

/-- Concrete direct-tool arguments with the listing flag unset. -/
def wArgsModelsFalse : DirectArgs :=
  { endpoint := "E", api_key := "K", model := "gpt-4", prompt := "ping",
    max_tokens := 5, temperature := 0, list_models := false }

end DirectTool


namespace AgentTool

lemma mk_data (s : String) : String.mk s.data = s := by
  cases s
  rfl

lemma foldl_content_eq (cs : List Fragment) (acc : List String) :
    cs.foldl (fun acc c =>
        match c.text with
        | TextAttr.value v => acc ++ [v]
        | _ => acc) acc
      = acc ++ cs.filterMap fragmentText := by
  induction cs generalizing acc with
  | nil => simp
  | cons c rest ih =>
    cases h : c.text <;> simp [List.foldl, ih, fragmentText, h]

lemma normalizeContent_eq (cs : List Fragment) :
    normalizeContent cs = cs.filterMap fragmentText := by
  simpa using foldl_content_eq cs []

lemma msgStep_eq (acc : List NormMsg × List String) (m : Msg) :
    msgStep acc m
      = (acc.1 ++ [normMsgOf m],
         acc.2 ++ (if m.role == "assistant"
                   then (m.content.getD []).filterMap fragmentText
                   else [])) := by
  unfold msgStep normMsgOf
  cases hc : m.content with
  | none => simp
  | some cs =>
    by_cases he : cs.isEmpty
    · rw [List.isEmpty_iff] at he
      subst he
      simp
    · simp only [if_neg he, normalizeContent_eq, Option.getD_some]
      by_cases hr : (m.role == "assistant") = true
      · by_cases hne : (cs.filterMap fragmentText).isEmpty
        · rw [List.isEmpty_iff] at hne
          simp [hr, hne]
        · simp [hr, hne]
      · simp [hr]

lemma foldl_msgStep (msgs : List Msg) (accM : List NormMsg) (accR : List String) :
    msgs.foldl msgStep (accM, accR)
      = (accM ++ msgs.map normMsgOf, accR ++ assistantFragments msgs) := by
  induction msgs generalizing accM accR with
  | nil => simp [assistantFragments]
  | cons m rest ih =>
    simp only [List.foldl_cons, msgStep_eq, ih, assistantFragments, List.map_cons]
    simp

lemma buildAgentResult_messages (tid : String) (run : Run) (msgs : List Msg) :
    (buildAgentResult tid run msgs).messages = msgs.map normMsgOf := by
  simp [buildAgentResult, foldl_msgStep]

lemma joinNl_of_isEmpty (l : List String) :
    (if l.isEmpty then "" else joinNl l) = joinNl l := by
  cases l <;> rfl

lemma buildAgentResult_agent_response (tid : String) (run : Run) (msgs : List Msg) :
    (buildAgentResult tid run msgs).agent_response = joinNl (assistantFragments msgs) := by
  simp only [buildAgentResult, foldl_msgStep, List.nil_append]
  exact joinNl_of_isEmpty _

lemma buildAgentResult_thread_id (tid : String) (run : Run) (msgs : List Msg) :
    (buildAgentResult tid run msgs).thread_id = tid := rfl

lemma buildAgentResult_run_id (tid : String) (run : Run) (msgs : List Msg) :
    (buildAgentResult tid run msgs).run_id = run.id := rfl

lemma assistantFragments_append (l1 l2 : List Msg) :
    assistantFragments (l1 ++ l2) = assistantFragments l1 ++ assistantFragments l2 := by
  induction l1 with
  | nil => simp [assistantFragments]
  | cons m rest ih => simp [assistantFragments, ih]

lemma assistantFragments_eq_nil (msgs : List Msg)
    (h : ∀ m ∈ msgs, ¬ m.role = "assistant") :
    assistantFragments msgs = [] := by
  induction msgs with
  | nil => rfl
  | cons m rest ih =>
    have hm : (m.role == "assistant") = false :=
      beq_eq_false_iff_ne.mpr (h m (List.mem_cons_self m rest))
    simp [assistantFragments, hm, ih fun x hx => h x (List.mem_cons_of_mem m hx)]

lemma splitChars_no_newline (cs : List Char) (h : '\n' ∉ cs) :
    splitChars cs = [cs] := by
  induction cs with
  | nil => rfl
  | cons c rest ih =>
    have hc : ¬ c = '\n' := fun hcc => h (hcc ▸ List.mem_cons_self c rest)
    rw [splitChars, if_neg hc, ih fun hm => h (List.mem_cons_of_mem c hm)]

lemma splitChars_append_newline (a b : List Char) (h : '\n' ∉ a) :
    splitChars (a ++ '\n' :: b) = a :: splitChars b := by
  induction a with
  | nil => simp [splitChars]
  | cons c a ih =>
    have hc : ¬ c = '\n' := fun hcc => h (hcc ▸ List.mem_cons_self c a)
    rw [List.cons_append, splitChars, if_neg hc,
      ih fun hm => h (List.mem_cons_of_mem c hm)]

lemma joinNl_cons (v w : String) (rest : List String) :
    joinNl (v :: w :: rest) = v ++ "\n" ++ joinNl (w :: rest) := rfl

lemma split_nl_joinNl (vs : List String) (hne : vs ≠ [])
    (h : ∀ v ∈ vs, '\n' ∉ v.data) :
    split_nl (joinNl vs) = vs := by
  induction vs with
  | nil => exact absurd rfl hne
  | cons v rest ih =>
    cases rest with
    | nil =>
      show (splitChars (joinNl [v]).data).map String.mk = [v]
      rw [show joinNl [v] = v from rfl,
        splitChars_no_newline v.data (h v (List.mem_cons_self v [])),
        List.map_singleton, mk_data]
    | cons w rest2 =>
      have hdata : (joinNl (v :: w :: rest2)).data
          = v.data ++ '\n' :: (joinNl (w :: rest2)).data := by
        rw [joinNl_cons, String.data_append, String.data_append]
        simp [String.data]
      show (splitChars (joinNl (v :: w :: rest2)).data).map String.mk = _
      rw [hdata, splitChars_append_newline _ _ (h v (List.mem_cons_self v _)),
        List.map_cons, mk_data]
      have := ih (by simp) fun x hx => h x (List.mem_cons_of_mem v hx)
      rw [show (splitChars (joinNl (w :: rest2)).data).map String.mk
            = split_nl (joinNl (w :: rest2)) from rfl, this]

end AgentTool

namespace AgentTool

lemma foldl_agents (l : List Agent) (acc : List AgentInfo) :
    l.foldl (fun acc agent => acc ++ [normalizeAgent agent]) acc
      = acc ++ l.map normalizeAgent := by
  induction l generalizing acc with
  | nil => simp
  | cons a rest ih => simp [List.foldl, ih]

lemma make_agent_ok (svc : AgentService) (endpoint agent_id prompt : String)
    (thread : Thread) (run : Run) (msgs : List Msg)
    (hcl : svc.mkClient endpoint = Except.ok ())
    (hth : svc.threadsCreate = Except.ok thread)
    (hmc : svc.messagesCreate thread.id "user" (outContent prompt) = Except.ok ())
    (hrun : svc.runsCreateAndProcess thread.id agent_id = Except.ok run)
    (hlist : svc.messagesList thread.id = Except.ok msgs) :
    make_agent_inference_request svc endpoint agent_id prompt
      = ([], canonicalCalls thread.id agent_id prompt,
         Except.ok (buildAgentResult thread.id run msgs)) := by
  simp [make_agent_inference_request, create_agent_client, hcl, hth, hmc, hrun,
    hlist, canonicalCalls]

lemma make_agent_trace_take (svc : AgentService) (endpoint agent_id prompt : String) :
    ∃ tid n, (make_agent_inference_request svc endpoint agent_id prompt).2.1
      = (canonicalCalls tid agent_id prompt).take n := by
  cases hcl : svc.mkClient endpoint with
  | error e =>
    exact ⟨"", 0, by simp [make_agent_inference_request, create_agent_client, hcl]⟩
  | ok u =>
    cases u
    cases hth : svc.threadsCreate with
    | error e =>
      exact ⟨"", 1, by
        simp [make_agent_inference_request, create_agent_client, hcl, hth, canonicalCalls]⟩
    | ok thread =>
      cases hmc : svc.messagesCreate thread.id "user" (outContent prompt) with
      | error e =>
        exact ⟨thread.id, 2, by
          simp [make_agent_inference_request, create_agent_client, hcl, hth, hmc,
            canonicalCalls]⟩
      | ok v =>
        cases v
        cases hrun : svc.runsCreateAndProcess thread.id agent_id with
        | error e =>
          exact ⟨thread.id, 3, by
            simp [make_agent_inference_request, create_agent_client, hcl, hth, hmc,
              hrun, canonicalCalls]⟩
        | ok run =>
          cases hlist : svc.messagesList thread.id with
          | error e =>
            exact ⟨thread.id, 4, by
              simp [make_agent_inference_request, create_agent_client, hcl, hth, hmc,
                hrun, hlist, canonicalCalls]⟩
          | ok msgs =>
            exact ⟨thread.id, 4, by
              simp [make_agent_inference_request, create_agent_client, hcl, hth, hmc,
                hrun, hlist, canonicalCalls]⟩

lemma make_agent_ok_inv (svc : AgentService) (endpoint agent_id prompt : String)
    (r : AgentResult)
    (h : (make_agent_inference_request svc endpoint agent_id prompt).2.2 = Except.ok r) :
    ∃ thread, svc.threadsCreate = Except.ok thread ∧
      (make_agent_inference_request svc endpoint agent_id prompt).2.1
        = canonicalCalls thread.id agent_id prompt ∧
      r.thread_id = thread.id := by
  cases hcl : svc.mkClient endpoint with
  | error e =>
    simp [make_agent_inference_request, create_agent_client, hcl] at h
  | ok u =>
    cases u
    cases hth : svc.threadsCreate with
    | error e =>
      simp [make_agent_inference_request, create_agent_client, hcl, hth] at h
    | ok thread =>
      cases hmc : svc.messagesCreate thread.id "user" (outContent prompt) with
      | error e =>
        simp [make_agent_inference_request, create_agent_client, hcl, hth, hmc] at h
      | ok v =>
        cases v
        cases hrun : svc.runsCreateAndProcess thread.id agent_id with
        | error e =>
          simp [make_agent_inference_request, create_agent_client, hcl, hth, hmc,
            hrun] at h
        | ok run =>
          cases hlist : svc.messagesList thread.id with
          | error e =>
            simp [make_agent_inference_request, create_agent_client, hcl, hth, hmc,
              hrun, hlist] at h
          | ok msgs =>
            refine ⟨thread, rfl, ?_, ?_⟩
            · simp [make_agent_inference_request, create_agent_client, hcl, hth, hmc,
                hrun, hlist, canonicalCalls]
            · simp [make_agent_inference_request, create_agent_client, hcl, hth, hmc,
                hrun, hlist] at h
              rw [← h]
              exact buildAgentResult_thread_id thread.id run msgs

lemma make_agent_error_spec (svc : AgentService) (endpoint agent_id prompt e : String)
    (h : agentCallError svc endpoint agent_id prompt = some e) :
    (make_agent_inference_request svc endpoint agent_id prompt).2.2 = Except.error e ∧
    Output.text (errLine e)
      ∈ (make_agent_inference_request svc endpoint agent_id prompt).1 := by
  cases hcl : svc.mkClient endpoint with
  | error e0 =>
    simp only [agentCallError, hcl, Option.some.injEq] at h
    subst h
    simp [make_agent_inference_request, create_agent_client, hcl]
  | ok u =>
    cases u
    cases hth : svc.threadsCreate with
    | error e0 =>
      simp only [agentCallError, hcl, hth, Option.some.injEq] at h
      subst h
      simp [make_agent_inference_request, create_agent_client, hcl, hth]
    | ok thread =>
      cases hmc : svc.messagesCreate thread.id "user" (outContent prompt) with
      | error e0 =>
        simp only [agentCallError, hcl, hth, hmc, Option.some.injEq] at h
        subst h
        simp [make_agent_inference_request, create_agent_client, hcl, hth, hmc]
      | ok v =>
        cases v
        cases hrun : svc.runsCreateAndProcess thread.id agent_id with
        | error e0 =>
          simp only [agentCallError, hcl, hth, hmc, hrun, Option.some.injEq] at h
          subst h
          simp [make_agent_inference_request, create_agent_client, hcl, hth, hmc, hrun]
        | ok run =>
          cases hlist : svc.messagesList thread.id with
          | error e0 =>
            simp only [agentCallError, hcl, hth, hmc, hrun, hlist,
              Option.some.injEq] at h
            subst h
            simp [make_agent_inference_request, create_agent_client, hcl, hth, hmc,
              hrun, hlist]
          | ok msgs =>
            simp only [agentCallError, hcl, hth, hmc, hrun, hlist] at h
            exact Option.noConfusion h

lemma agent_main_error (svc : AgentService) (a : AgentArgs) (e : String)
    (hl : a.list_agents = false)
    (h : (make_agent_inference_request svc a.endpoint a.agent_id a.prompt).2.2
           = Except.error e) :
    (agent_main svc a).1 = 1 ∧
    Output.text (errLine e) ∈ (agent_main svc a).2.1 := by
  unfold agent_main
  rw [if_neg (by simp [hl])]
  rcases hm : make_agent_inference_request svc a.endpoint a.agent_id a.prompt
    with ⟨out, tr, res⟩
  rw [hm] at h
  simp only at h
  subst h
  simp

lemma agent_main_list (svc : AgentService) (a : AgentArgs)
    (hl : a.list_agents = true) :
    (∀ c ∈ (agent_main svc a).2.2, c = RemoteCall.listAgentsCall) ∧
    (∀ agents, svc.mkClient a.endpoint = Except.ok () →
       svc.agentsList = Except.ok agents →
       (agent_main svc a).1 = 0 ∧
       Output.text "\nAvailable agents:" ∈ (agent_main svc a).2.1) := by
  cases hcl : svc.mkClient a.endpoint with
  | error e =>
    constructor
    · simp [agent_main, hl, list_agents, create_agent_client, hcl]
    · intro agents hok
      exact Except.noConfusion hok
  | ok u =>
    cases u
    cases hal : svc.agentsList with
    | error e =>
      constructor
      · simp [agent_main, hl, list_agents, create_agent_client, hcl, hal]
      · intro agents _ hag
        exact Except.noConfusion hag
    | ok ags =>
      constructor
      · simp [agent_main, hl, list_agents, create_agent_client, hcl, hal]
      · intro agents _ _
        constructor
        · simp [agent_main, hl, list_agents, create_agent_client, hcl, hal]
        · simp [agent_main, hl, list_agents, create_agent_client, hcl, hal]

lemma list_agents_ok (svc : AgentService) (endpoint : String) (agents : List Agent)
    (hcl : svc.mkClient endpoint = Except.ok ())
    (hl : svc.agentsList = Except.ok agents) :
    (list_agents svc endpoint).2.2 = Except.ok (agents.map normalizeAgent) := by
  simp [list_agents, create_agent_client, hcl, hl, foldl_agents]

lemma list_agents_error_spec (svc : AgentService) (endpoint e : String)
    (h : agentListError svc endpoint = some e) :
    (list_agents svc endpoint).2.2 = Except.error e ∧
    Output.text (errLine e) ∈ (list_agents svc endpoint).1 ∧
    (list_agents svc endpoint).2.1.length ≤ 1 := by
  cases hcl : svc.mkClient endpoint with
  | error e0 =>
    simp only [agentListError, hcl, Option.some.injEq] at h
    subst h
    simp [list_agents, create_agent_client, hcl]
  | ok u =>
    cases u
    cases hal : svc.agentsList with
    | error e0 =>
      simp only [agentListError, hcl, hal, Option.some.injEq] at h
      subst h
      simp [list_agents, create_agent_client, hcl, hal]
    | ok ags =>
      simp only [agentListError, hcl, hal] at h
      exact Option.noConfusion h

lemma agent_main_list_error (svc : AgentService) (a : AgentArgs) (e : String)
    (hl : a.list_agents = true)
    (h : (list_agents svc a.endpoint).2.2 = Except.error e) :
    (agent_main svc a).1 = 1 ∧
    Output.text (errLine e) ∈ (agent_main svc a).2.1 := by
  unfold agent_main
  rw [if_pos (by simp [hl])]
  rcases hm : list_agents svc a.endpoint with ⟨out, tr, res⟩
  rw [hm] at h
  simp only at h
  subst h
  simp

end AgentTool

namespace DirectTool

lemma foldl_choices (cs : List Choice) (acc : List Choice) :
    cs.foldl (fun acc choice =>
        acc ++ [{ message := { role := choice.message.role,
                               content := choice.message.content } }]) acc
      = acc ++ cs := by
  induction cs generalizing acc with
  | nil => simp
  | cons c rest ih => simp [List.foldl, ih]

lemma make_inference_ok (svc : CompletionService)
    (endpoint api_key deployment_name prompt : String)
    (max_tokens : Int) (temperature : Rat) (resp : ChatResponse)
    (hcl : svc.mkClient api_key endpoint = Except.ok ())
    (hresp : svc.complete (mkRequest deployment_name prompt max_tokens temperature)
               = Except.ok resp) :
    make_inference_request svc endpoint api_key deployment_name prompt
        max_tokens temperature
      = ([], [mkRequest deployment_name prompt max_tokens temperature],
         Except.ok { id := resp.id, model := resp.model, choices := resp.choices }) := by
  have h2 : svc.complete
      { model := deployment_name,
        messages := [{ role := "user", content := prompt }],
        max_tokens := max_tokens, temperature := temperature } = Except.ok resp := hresp
  simp [make_inference_request, mkRequest, hcl, h2, foldl_choices]

lemma make_inference_error_spec (svc : CompletionService)
    (endpoint api_key deployment_name prompt : String)
    (max_tokens : Int) (temperature : Rat) (e : String)
    (h : directCallError svc endpoint api_key deployment_name prompt
           max_tokens temperature = some e) :
    (make_inference_request svc endpoint api_key deployment_name prompt
        max_tokens temperature).2.2 = Except.error e ∧
    DOutput.text (derrLine e)
      ∈ (make_inference_request svc endpoint api_key deployment_name prompt
          max_tokens temperature).1 ∧
    (make_inference_request svc endpoint api_key deployment_name prompt
        max_tokens temperature).2.1.length ≤ 1 := by
  cases hcl : svc.mkClient api_key endpoint with
  | error e0 =>
    simp only [directCallError, hcl, Option.some.injEq] at h
    subst h
    simp [make_inference_request, hcl]
  | ok u =>
    cases u
    cases hresp : svc.complete (mkRequest deployment_name prompt max_tokens temperature)
      with
    | error e0 =>
      simp only [directCallError, hcl, hresp, Option.some.injEq] at h
      have h2 : svc.complete
          { model := deployment_name,
            messages := [{ role := "user", content := prompt }],
            max_tokens := max_tokens, temperature := temperature }
          = Except.error e0 := hresp
      rw [← h]
      simp [make_inference_request, hcl, h2]
    | ok resp =>
      simp only [directCallError, hcl, hresp] at h
      exact Option.noConfusion h

lemma direct_main_error (svc : CompletionService) (a : DirectArgs) (e : String)
    (hl : a.list_models = false)
    (h : (make_inference_request svc a.endpoint a.api_key a.model a.prompt
            a.max_tokens a.temperature).2.2 = Except.error e) :
    (direct_main svc a).1 = 1 ∧
    DOutput.text (derrLine e) ∈ (direct_main svc a).2.1 := by
  unfold direct_main
  rw [if_neg (by simp [hl])]
  rcases hm : make_inference_request svc a.endpoint a.api_key a.model a.prompt
      a.max_tokens a.temperature with ⟨out, tr, res⟩
  rw [hm] at h
  simp only at h
  subst h
  simp

lemma direct_main_list (svc : CompletionService) (a : DirectArgs)
    (hl : a.list_models = true) :
    (direct_main svc a).2.2 = [] ∧
    (svc.mkClient a.api_key a.endpoint = Except.ok () →
       (direct_main svc a).1 = 0 ∧
       DOutput.text "\nAvailable models:" ∈ (direct_main svc a).2.1) := by
  cases hcl : svc.mkClient a.api_key a.endpoint with
  | error e =>
    constructor
    · simp [direct_main, hl, list_models, hcl]
    · intro hok
      exact Except.noConfusion hok
  | ok u =>
    cases u
    constructor
    · simp [direct_main, hl, list_models, hcl]
    · intro _
      constructor
      · simp [direct_main, hl, list_models, hcl]
      · simp [direct_main, hl, list_models, hcl, modelListingLines]

lemma list_models_ok (svc : CompletionService) (endpoint api_key : String)
    (models : List ModelInfo)
    (h : (list_models svc endpoint api_key).2.2 = Except.ok models) :
    models = [{ name := "gpt-4", model := "gpt-4" },
              { name := "gpt-3.5-turbo", model := "gpt-3.5-turbo" }] := by
  cases hcl : svc.mkClient api_key endpoint with
  | error e => simp [list_models, hcl] at h
  | ok u =>
    cases u
    simp [list_models, hcl] at h
    exact h.symm

lemma list_models_no_request (svc : CompletionService) (endpoint api_key : String) :
    (list_models svc endpoint api_key).2.1 = [] := by
  cases hcl : svc.mkClient api_key endpoint with
  | error e => simp [list_models, hcl]
  | ok u =>
    cases u
    simp [list_models, hcl]

lemma list_models_error_spec (svc : CompletionService) (endpoint api_key e : String)
    (h : directListError svc endpoint api_key = some e) :
    (list_models svc endpoint api_key).2.2 = Except.error e ∧
    DOutput.text (derrLine e) ∈ (list_models svc endpoint api_key).1 := by
  cases hcl : svc.mkClient api_key endpoint with
  | error e0 =>
    simp only [directListError, hcl, Option.some.injEq] at h
    subst h
    simp [list_models, hcl]
  | ok u =>
    cases u
    simp only [directListError, hcl] at h
    exact Option.noConfusion h

lemma direct_main_list_error (svc : CompletionService) (a : DirectArgs) (e : String)
    (hl : a.list_models = true)
    (h : (list_models svc a.endpoint a.api_key).2.2 = Except.error e) :
    (direct_main svc a).1 = 1 ∧
    DOutput.text (derrLine e) ∈ (direct_main svc a).2.1 := by
  unfold direct_main
  rw [if_pos (by simp [hl])]
  rcases hm : list_models svc a.endpoint a.api_key with ⟨out, tr, res⟩
  rw [hm] at h
  simp only at h
  subst h
  simp

end DirectTool

namespace AgentTool

lemma errLine_eq (e : String) : errLine e = "Error" ++ (": " ++ e) := by
  have h : "Error" ++ ": " = "Error: " := rfl
  rw [errLine, ← String.append_assoc, h]

end AgentTool

namespace DirectTool

lemma derrLine_eq (e : String) : derrLine e = "Error" ++ (": " ++ e) := by
  have h : "Error" ++ ": " = "Error: " := rfl
  rw [derrLine, ← String.append_assoc, h]

lemma map_rebuild_choices (cs : List Choice) :
    cs.map (fun choice =>
      ({ message := { role := choice.message.role,
                      content := choice.message.content } } : Choice)) = cs := by
  induction cs with
  | nil => rfl
  | cons c rest ih => simp [ih]

end DirectTool

namespace AgentTool

/-- C1: For every sequence of messages returned by the agent tool's listing
call, the `agent_response` field of the result built by
`make_agent_inference_request` equals the newline-join, in encounter order,
of every text fragment value found in messages whose role equals
"assistant", and equals the empty string when no assistant-role message
exists. -/
theorem claim_agent_response_join (svc : AgentService)
    (endpoint agent_id prompt : String) (thread : Thread) (run : Run)
    (msgs : List Msg)
    (hcl : svc.mkClient endpoint = Except.ok ())
    (hth : svc.threadsCreate = Except.ok thread)
    (hmc : svc.messagesCreate thread.id "user" (outContent prompt) = Except.ok ())
    (hrun : svc.runsCreateAndProcess thread.id agent_id = Except.ok run)
    (hlist : svc.messagesList thread.id = Except.ok msgs) :
    (make_agent_inference_request svc endpoint agent_id prompt).2.2
      = Except.ok (buildAgentResult thread.id run msgs) ∧
    (buildAgentResult thread.id run msgs).agent_response
      = joinNl (assistantFragments msgs) ∧
    ((∀ m ∈ msgs, ¬ m.role = "assistant") →
      (buildAgentResult thread.id run msgs).agent_response = "") := by
  refine ⟨?_, buildAgentResult_agent_response thread.id run msgs, ?_⟩
  · rw [make_agent_ok svc endpoint agent_id prompt thread run msgs hcl hth hmc
      hrun hlist]
  · intro h
    rw [buildAgentResult_agent_response, assistantFragments_eq_nil msgs h]
    rfl

/-- Witness for C1: evaluation on a concrete service whose listing returns
one user and one assistant message. -/
theorem claim_agent_response_join_witness :
    wAgentService.mkClient "E" = Except.ok () ∧
    wAgentService.threadsCreate = Except.ok { id := "t1" } ∧
    wAgentService.messagesCreate "t1" "user" (outContent "hi") = Except.ok () ∧
    wAgentService.runsCreateAndProcess "t1" "A" = Except.ok { id := some "r1" } ∧
    wAgentService.messagesList "t1" = Except.ok wMsgs ∧
    ((make_agent_inference_request wAgentService "E" "A" "hi").2.2
        = Except.ok (buildAgentResult "t1" { id := some "r1" } wMsgs) ∧
      (buildAgentResult "t1" { id := some "r1" } wMsgs).agent_response
        = joinNl (assistantFragments wMsgs) ∧
      ((∀ m ∈ wMsgs, ¬ m.role = "assistant") →
        (buildAgentResult "t1" { id := some "r1" } wMsgs).agent_response = "")) :=
  ⟨rfl, rfl, rfl, rfl, rfl,
   claim_agent_response_join wAgentService "E" "A" "hi" { id := "t1" }
     { id := some "r1" } wMsgs rfl rfl rfl rfl rfl⟩

/-- C3: For every invocation of `make_agent_inference_request`, the remote
calls issued are always an initial segment of the four-call sequence
create thread, create message on that thread, create run binding that
thread to the agent, list messages of that thread; on success the full
sequence is issued, in this order, each call consuming the thread id
obtained by the first.  No other call order is possible. -/
theorem claim_call_order (svc : AgentService) (endpoint agent_id prompt : String) :
    (∃ tid n, (make_agent_inference_request svc endpoint agent_id prompt).2.1
        = (canonicalCalls tid agent_id prompt).take n) ∧
    (∀ r, (make_agent_inference_request svc endpoint agent_id prompt).2.2
        = Except.ok r →
      ∃ thread, svc.threadsCreate = Except.ok thread ∧
        (make_agent_inference_request svc endpoint agent_id prompt).2.1
          = canonicalCalls thread.id agent_id prompt ∧
        r.thread_id = thread.id) :=
  ⟨make_agent_trace_take svc endpoint agent_id prompt,
   fun r h => make_agent_ok_inv svc endpoint agent_id prompt r h⟩

/-- Witness for C3: the full four-call trace on a concrete succeeding
service. -/
theorem claim_call_order_witness :
    (make_agent_inference_request wAgentService "E" "A" "hi").2.2
        = Except.ok (buildAgentResult "t1" { id := some "r1" } wMsgs) ∧
    (∃ thread, wAgentService.threadsCreate = Except.ok thread ∧
        (make_agent_inference_request wAgentService "E" "A" "hi").2.1
          = canonicalCalls thread.id "A" "hi" ∧
        (buildAgentResult "t1" { id := some "r1" } wMsgs).thread_id = thread.id) :=
  ⟨rfl, (claim_call_order wAgentService "E" "A" "hi").2
    (buildAgentResult "t1" { id := some "r1" } wMsgs) rfl⟩

/-- C4: The `messages` field of the normalized result contains exactly one
entry per listed message, in the order returned by the listing call, each
carrying that message's role; nothing is reordered, inserted or dropped. -/
theorem claim_messages_preserved (tid : String) (run : Run) (msgs : List Msg) :
    (buildAgentResult tid run msgs).messages = msgs.map normMsgOf ∧
    ((buildAgentResult tid run msgs).messages).map NormMsg.role
      = msgs.map Msg.role ∧
    ((buildAgentResult tid run msgs).messages).length = msgs.length := by
  refine ⟨buildAgentResult_messages tid run msgs, ?_, ?_⟩
  · rw [buildAgentResult_messages, List.map_map]
    rfl
  · rw [buildAgentResult_messages]
    simp

/-- C5: Normalization omits every fragment lacking a text value (either no
text attribute, or a text object with no value attribute) from the
message's normalized content list, keeps every fragment carrying a value,
and raises no error. -/
theorem claim_fragment_omission (pre post : List Fragment) (f g : Fragment)
    (v : String)
    (hf : f.text = TextAttr.absent ∨ f.text = TextAttr.noValue)
    (hg : g.text = TextAttr.value v) :
    normalizeContent (pre ++ f :: post) = normalizeContent (pre ++ post) ∧
    normalizeContent (pre ++ g :: post)
      = normalizeContent pre ++ v :: normalizeContent post := by
  have hft : fragmentText f = none := by
    rcases hf with h | h <;> simp [fragmentText, h]
  have hgt : fragmentText g = some v := by
    simp [fragmentText, hg]
  constructor
  · simp [normalizeContent_eq, List.filterMap_append, List.filterMap_cons, hft]
  · simp [normalizeContent_eq, List.filterMap_append, List.filterMap_cons, hgt]

/-- Witness for C5: a valueless fragment between two valued ones is dropped,
a valued one is kept. -/
theorem claim_fragment_omission_witness :
    ((({ text := TextAttr.absent } : Fragment).text = TextAttr.absent ∨
      ({ text := TextAttr.absent } : Fragment).text = TextAttr.noValue) ∧
     ({ text := TextAttr.value "x" } : Fragment).text = TextAttr.value "x") ∧
    (normalizeContent ([{ text := TextAttr.value "a" }]
         ++ { text := TextAttr.absent } :: [{ text := TextAttr.value "b" }])
       = normalizeContent ([{ text := TextAttr.value "a" }]
           ++ [{ text := TextAttr.value "b" }]) ∧
     normalizeContent ([{ text := TextAttr.value "a" }]
         ++ ({ text := TextAttr.value "x" } : Fragment)
            :: [{ text := TextAttr.value "b" }])
       = normalizeContent [{ text := TextAttr.value "a" }]
           ++ "x" :: normalizeContent [{ text := TextAttr.value "b" }]) :=
  ⟨⟨Or.inl rfl, rfl⟩,
   claim_fragment_omission [{ text := TextAttr.value "a" }]
     [{ text := TextAttr.value "b" }] { text := TextAttr.absent }
     { text := TextAttr.value "x" } "x" (Or.inl rfl) rfl⟩

/-- C6: `list_agents` produces one `{id, name, description}` entry per agent
returned by the remote listing, where `name` defaults to "Unknown" when the
agent lacks a name attribute, `description` defaults to the empty string
when the agent lacks a description attribute, and no missing-field error is
raised. -/
theorem claim_agent_defaults (svc : AgentService) (endpoint : String)
    (agents : List Agent)
    (hcl : svc.mkClient endpoint = Except.ok ())
    (hl : svc.agentsList = Except.ok agents) :
    (list_agents svc endpoint).2.2 = Except.ok (agents.map normalizeAgent) ∧
    ∀ a ∈ agents,
      (normalizeAgent a).id = a.id ∧
      (a.name = none → (normalizeAgent a).name = "Unknown") ∧
      (∀ n, a.name = some n → (normalizeAgent a).name = n) ∧
      (a.description = none → (normalizeAgent a).description = "") ∧
      (∀ d, a.description = some d → (normalizeAgent a).description = d) := by
  refine ⟨list_agents_ok svc endpoint agents hcl hl, ?_⟩
  intro a _
  refine ⟨rfl, ?_, ?_, ?_, ?_⟩
  · intro h
    simp [normalizeAgent, h]
  · intro n h
    simp [normalizeAgent, h]
  · intro h
    simp [normalizeAgent, h]
  · intro d h
    simp [normalizeAgent, h]

/-- Witness for C6: a concrete agent lacking both optional attributes gets
the defaults. -/
theorem claim_agent_defaults_witness :
    wAgentService.mkClient "E" = Except.ok () ∧
    wAgentService.agentsList
      = Except.ok [{ id := "a1", name := none, description := none }] ∧
    ((list_agents wAgentService "E").2.2
        = Except.ok
            (([{ id := "a1", name := none, description := none }] : List Agent).map
              normalizeAgent) ∧
     ∀ a ∈ ([{ id := "a1", name := none, description := none }] : List Agent),
       (normalizeAgent a).id = a.id ∧
       (a.name = none → (normalizeAgent a).name = "Unknown") ∧
       (∀ n, a.name = some n → (normalizeAgent a).name = n) ∧
       (a.description = none → (normalizeAgent a).description = "") ∧
       (∀ d, a.description = some d → (normalizeAgent a).description = d)) :=
  ⟨rfl, rfl,
   claim_agent_defaults wAgentService "E"
     [{ id := "a1", name := none, description := none }] rfl rfl⟩

end AgentTool

namespace AgentTool

/-- Counterexample to C10 as stated: the assistant fragment value "a\nb"
makes `agent_response` equal to "a\nb", whose line "a" is not a fragment
value of any assistant message, so not every line of a non-empty
`agent_response` is an actual fragment value. -/
theorem claim_lines_counterexample :
    (buildAgentResult "t" { id := some "r" } [cexMsg]).agent_response = "a\nb" ∧
    split_nl ((buildAgentResult "t" { id := some "r" } [cexMsg]).agent_response)
      = ["a", "b"] ∧
    (buildAgentResult "t" { id := some "r" } [cexMsg]).agent_response ≠ "" ∧
    assistantFragments [cexMsg] = ["a\nb"] ∧
    "a" ∉ assistantFragments [cexMsg] := by
  refine ⟨rfl, rfl, ?_, rfl, ?_⟩ <;> decide

/-- C10 (amended): an assistant-role message none of whose content fragments
carries a text value (or whose content attribute is absent or empty)
contributes nothing to `agent_response` — no empty line is inserted into
the newline join for it — and, provided no assistant fragment value itself
contains a newline character, the lines of `agent_response` are exactly the
assistant fragment values in encounter order, so every line is an actual
fragment value of some assistant message. -/
theorem claim_no_empty_contribution :
    (∀ (tid : String) (run : Run) (pre post : List Msg) (m : Msg),
       m.role = "assistant" →
       (m.content.getD []).filterMap fragmentText = [] →
       (buildAgentResult tid run (pre ++ m :: post)).agent_response
         = (buildAgentResult tid run (pre ++ post)).agent_response) ∧
    (∀ (tid : String) (run : Run) (msgs : List Msg),
       assistantFragments msgs ≠ [] →
       (∀ v ∈ assistantFragments msgs, '\n' ∉ v.data) →
       split_nl ((buildAgentResult tid run msgs).agent_response)
         = assistantFragments msgs) := by
  constructor
  · intro tid run pre post m _ hm
    rw [buildAgentResult_agent_response, buildAgentResult_agent_response,
      assistantFragments_append, assistantFragments_append]
    simp [assistantFragments, hm]
  · intro tid run msgs hne h
    rw [buildAgentResult_agent_response]
    exact split_nl_joinNl (assistantFragments msgs) hne h

/-- Witness for C10 (amended): a valueless assistant message contributes
nothing, and on newline-free fragment values the lines are exactly the
fragment values. -/
theorem claim_no_empty_contribution_witness :
    (wEmptyAssistant.role = "assistant" ∧
     (wEmptyAssistant.content.getD []).filterMap fragmentText = [] ∧
     (buildAgentResult "t" { id := some "r" }
         ([] ++ wEmptyAssistant :: wMsgs)).agent_response
       = (buildAgentResult "t" { id := some "r" } ([] ++ wMsgs)).agent_response) ∧
    (assistantFragments wMsgs ≠ [] ∧
     (∀ v ∈ assistantFragments wMsgs, '\n' ∉ v.data) ∧
     split_nl ((buildAgentResult "t" { id := some "r" } wMsgs).agent_response)
       = assistantFragments wMsgs) :=
  ⟨⟨rfl, rfl,
    claim_no_empty_contribution.1 "t" { id := some "r" } [] wMsgs
      wEmptyAssistant rfl rfl⟩,
   ⟨by decide, by decide,
    claim_no_empty_contribution.2 "t" { id := some "r" } wMsgs (by decide)
      (by decide)⟩⟩

end AgentTool

namespace DirectTool

/-- C2: For every invocation of the direct tool, `make_inference_request`
issues exactly one chat-completion request, whose message list is the
single entry `{role: "user", content: prompt}` and whose model, max_tokens
and temperature equal the given arguments unmodified; it returns a
dictionary `{id, model, choices}` where `choices` contains, in the order
returned, one `{message: {role, content}}` entry per choice of the remote
response. -/
theorem claim_single_completion_request (svc : CompletionService)
    (endpoint api_key deployment_name prompt : String)
    (max_tokens : Int) (temperature : Rat) (resp : ChatResponse)
    (hcl : svc.mkClient api_key endpoint = Except.ok ())
    (hresp : svc.complete (mkRequest deployment_name prompt max_tokens temperature)
               = Except.ok resp) :
    (make_inference_request svc endpoint api_key deployment_name prompt
        max_tokens temperature).2.1
      = [{ model := deployment_name,
           messages := [{ role := "user", content := prompt }],
           max_tokens := max_tokens, temperature := temperature }] ∧
    (make_inference_request svc endpoint api_key deployment_name prompt
        max_tokens temperature).2.2
      = Except.ok
          { id := resp.id, model := resp.model,
            choices := resp.choices.map (fun choice =>
              { message := { role := choice.message.role,
                             content := choice.message.content } }) } := by
  rw [make_inference_ok svc endpoint api_key deployment_name prompt max_tokens
    temperature resp hcl hresp]
  constructor
  · rfl
  · rw [map_rebuild_choices]

/-- Witness for C2: the scenario of a gpt-4 call with prompt "ping",
max_tokens 5 and temperature 0 on a concrete stub service. -/
theorem claim_single_completion_request_witness :
    wCompletionService.mkClient "K" "E" = Except.ok () ∧
    wCompletionService.complete (mkRequest "gpt-4" "ping" 5 0)
      = Except.ok wResponse ∧
    ((make_inference_request wCompletionService "E" "K" "gpt-4" "ping" 5 0).2.1
        = [{ model := "gpt-4",
             messages := [{ role := "user", content := "ping" }],
             max_tokens := 5, temperature := 0 }] ∧
     (make_inference_request wCompletionService "E" "K" "gpt-4" "ping" 5 0).2.2
        = Except.ok
            { id := wResponse.id, model := wResponse.model,
              choices := wResponse.choices.map (fun choice =>
                { message := { role := choice.message.role,
                               content := choice.message.content } }) }) :=
  ⟨rfl, rfl,
   claim_single_completion_request wCompletionService "E" "K" "gpt-4" "ping"
     5 0 wResponse rfl rfl⟩

/-- C9: Whenever `list_models` returns, it returns exactly the fixed
two-element list, for every endpoint and api-key value, and issues no
remote request. -/
theorem claim_fixed_model_list (svc : CompletionService)
    (endpoint api_key : String) (models : List ModelInfo)
    (h : (list_models svc endpoint api_key).2.2 = Except.ok models) :
    models = [{ name := "gpt-4", model := "gpt-4" },
              { name := "gpt-3.5-turbo", model := "gpt-3.5-turbo" }] ∧
    (list_models svc endpoint api_key).2.1 = [] :=
  ⟨list_models_ok svc endpoint api_key models h,
   list_models_no_request svc endpoint api_key⟩

/-- Witness for C9 on a concrete service. -/
theorem claim_fixed_model_list_witness :
    (list_models wCompletionService "E" "K").2.2
      = Except.ok [{ name := "gpt-4", model := "gpt-4" },
                   { name := "gpt-3.5-turbo", model := "gpt-3.5-turbo" }] ∧
    ([{ name := "gpt-4", model := "gpt-4" },
      { name := "gpt-3.5-turbo", model := "gpt-3.5-turbo" }] : List ModelInfo)
      = [{ name := "gpt-4", model := "gpt-4" },
         { name := "gpt-3.5-turbo", model := "gpt-3.5-turbo" }] ∧
    (list_models wCompletionService "E" "K").2.1 = [] :=
  ⟨rfl,
   (claim_fixed_model_list wCompletionService "E" "K" _ rfl).1,
   (claim_fixed_model_list wCompletionService "E" "K"
     [{ name := "gpt-4", model := "gpt-4" },
      { name := "gpt-3.5-turbo", model := "gpt-3.5-turbo" }] rfl).2⟩

end DirectTool

/-- C7: With the listing flag set (`--list-agents` for the agent tool,
`--list-models` for the direct tool), no completion or run request is
performed — the trace holds no thread/message/run/list-messages call and no
chat-completion request — and when the listing succeeds the tool exits with
status 0 after printing the listing. -/
theorem claim_listing_short_circuit (asvc : AgentTool.AgentService)
    (aargs : AgentTool.AgentArgs) (dsvc : DirectTool.CompletionService)
    (dargs : DirectTool.DirectArgs)
    (ha : aargs.list_agents = true) (hd : dargs.list_models = true) :
    (∀ c ∈ (AgentTool.agent_main asvc aargs).2.2,
       c = AgentTool.RemoteCall.listAgentsCall) ∧
    (∀ agents, asvc.mkClient aargs.endpoint = Except.ok () →
       asvc.agentsList = Except.ok agents →
       (AgentTool.agent_main asvc aargs).1 = 0 ∧
       AgentTool.Output.text "\nAvailable agents:"
         ∈ (AgentTool.agent_main asvc aargs).2.1) ∧
    ((DirectTool.direct_main dsvc dargs).2.2 = []) ∧
    (dsvc.mkClient dargs.api_key dargs.endpoint = Except.ok () →
       (DirectTool.direct_main dsvc dargs).1 = 0 ∧
       DirectTool.DOutput.text "\nAvailable models:"
         ∈ (DirectTool.direct_main dsvc dargs).2.1) := by
  obtain ⟨h1, h2⟩ := AgentTool.agent_main_list asvc aargs ha
  obtain ⟨h3, h4⟩ := DirectTool.direct_main_list dsvc dargs hd
  exact ⟨h1, h2, h3, h4⟩

/-- Witness for C7 on concrete succeeding services with the listing flags
set. -/
theorem claim_listing_short_circuit_witness :
    AgentTool.wArgsListTrue.list_agents = true ∧
    DirectTool.wArgsModelsTrue.list_models = true ∧
    ((∀ c ∈ (AgentTool.agent_main AgentTool.wAgentService
               AgentTool.wArgsListTrue).2.2,
        c = AgentTool.RemoteCall.listAgentsCall) ∧
     (∀ agents,
        AgentTool.wAgentService.mkClient AgentTool.wArgsListTrue.endpoint
          = Except.ok () →
        AgentTool.wAgentService.agentsList = Except.ok agents →
        (AgentTool.agent_main AgentTool.wAgentService
           AgentTool.wArgsListTrue).1 = 0 ∧
        AgentTool.Output.text "\nAvailable agents:"
          ∈ (AgentTool.agent_main AgentTool.wAgentService
              AgentTool.wArgsListTrue).2.1) ∧
     ((DirectTool.direct_main DirectTool.wCompletionService
         DirectTool.wArgsModelsTrue).2.2 = []) ∧
     (DirectTool.wCompletionService.mkClient DirectTool.wArgsModelsTrue.api_key
        DirectTool.wArgsModelsTrue.endpoint = Except.ok () →
        (DirectTool.direct_main DirectTool.wCompletionService
           DirectTool.wArgsModelsTrue).1 = 0 ∧
        DirectTool.DOutput.text "\nAvailable models:"
          ∈ (DirectTool.direct_main DirectTool.wCompletionService
              DirectTool.wArgsModelsTrue).2.1)) :=
  ⟨rfl, rfl,
   claim_listing_short_circuit AgentTool.wAgentService AgentTool.wArgsListTrue
     DirectTool.wCompletionService DirectTool.wArgsModelsTrue rfl rfl⟩
/-- C8: Every error raised during client construction or any remote call, in
either tool and in either mode (inference or listing), is caught by the
enclosing wrapper, which prints an `Error: ...` line and re-raises the same
error; `main` catches it again, prints a message containing "Error", and
exits with status 1; no error is swallowed and no call is retried (the
inference-mode trace stays an initial segment of the single canonical
sequence, the listing-mode trace holds at most the one listing call, and at
most one completion request is issued). -/
theorem claim_error_propagation :
    (∀ (asvc : AgentTool.AgentService) (aargs : AgentTool.AgentArgs)
       (e : String),
       aargs.list_agents = false →
       AgentTool.agentCallError asvc aargs.endpoint aargs.agent_id
         aargs.prompt = some e →
       (AgentTool.make_agent_inference_request asvc aargs.endpoint
           aargs.agent_id aargs.prompt).2.2 = Except.error e ∧
       AgentTool.Output.text (AgentTool.errLine e)
         ∈ (AgentTool.make_agent_inference_request asvc aargs.endpoint
             aargs.agent_id aargs.prompt).1 ∧
       (AgentTool.agent_main asvc aargs).1 = 1 ∧
       AgentTool.Output.text (AgentTool.errLine e)
         ∈ (AgentTool.agent_main asvc aargs).2.1 ∧
       AgentTool.errLine e = "Error" ++ (": " ++ e) ∧
       (∃ tid n, (AgentTool.make_agent_inference_request asvc aargs.endpoint
           aargs.agent_id aargs.prompt).2.1
         = (AgentTool.canonicalCalls tid aargs.agent_id aargs.prompt).take n)) ∧
    (∀ (asvc : AgentTool.AgentService) (aargs : AgentTool.AgentArgs)
       (e : String),
       aargs.list_agents = true →
       AgentTool.agentListError asvc aargs.endpoint = some e →
       (AgentTool.list_agents asvc aargs.endpoint).2.2 = Except.error e ∧
       AgentTool.Output.text (AgentTool.errLine e)
         ∈ (AgentTool.list_agents asvc aargs.endpoint).1 ∧
       (AgentTool.agent_main asvc aargs).1 = 1 ∧
       AgentTool.Output.text (AgentTool.errLine e)
         ∈ (AgentTool.agent_main asvc aargs).2.1 ∧
       AgentTool.errLine e = "Error" ++ (": " ++ e) ∧
       (AgentTool.list_agents asvc aargs.endpoint).2.1.length ≤ 1) ∧
    (∀ (dsvc : DirectTool.CompletionService) (dargs : DirectTool.DirectArgs)
       (e : String),
       dargs.list_models = false →
       DirectTool.directCallError dsvc dargs.endpoint dargs.api_key
         dargs.model dargs.prompt dargs.max_tokens dargs.temperature
         = some e →
       (DirectTool.make_inference_request dsvc dargs.endpoint dargs.api_key
           dargs.model dargs.prompt dargs.max_tokens
           dargs.temperature).2.2 = Except.error e ∧
       DirectTool.DOutput.text (DirectTool.derrLine e)
         ∈ (DirectTool.make_inference_request dsvc dargs.endpoint
             dargs.api_key dargs.model dargs.prompt dargs.max_tokens
             dargs.temperature).1 ∧
       (DirectTool.direct_main dsvc dargs).1 = 1 ∧
       DirectTool.DOutput.text (DirectTool.derrLine e)
         ∈ (DirectTool.direct_main dsvc dargs).2.1 ∧
       DirectTool.derrLine e = "Error" ++ (": " ++ e) ∧
       (DirectTool.make_inference_request dsvc dargs.endpoint dargs.api_key
           dargs.model dargs.prompt dargs.max_tokens
           dargs.temperature).2.1.length ≤ 1) ∧
    (∀ (dsvc : DirectTool.CompletionService) (dargs : DirectTool.DirectArgs)
       (e : String),
       dargs.list_models = true →
       DirectTool.directListError dsvc dargs.endpoint dargs.api_key = some e →
       (DirectTool.list_models dsvc dargs.endpoint dargs.api_key).2.2
         = Except.error e ∧
       DirectTool.DOutput.text (DirectTool.derrLine e)
         ∈ (DirectTool.list_models dsvc dargs.endpoint dargs.api_key).1 ∧
       (DirectTool.direct_main dsvc dargs).1 = 1 ∧
       DirectTool.DOutput.text (DirectTool.derrLine e)
         ∈ (DirectTool.direct_main dsvc dargs).2.1 ∧
       DirectTool.derrLine e = "Error" ++ (": " ++ e) ∧
       (DirectTool.list_models dsvc dargs.endpoint dargs.api_key).2.1 = []) := by
  refine ⟨?_, ?_, ?_, ?_⟩
  · intro asvc aargs e ha hae
    obtain ⟨h1, h2⟩ := AgentTool.make_agent_error_spec asvc aargs.endpoint
      aargs.agent_id aargs.prompt e hae
    obtain ⟨h3, h4⟩ := AgentTool.agent_main_error asvc aargs e ha h1
    exact ⟨h1, h2, h3, h4, AgentTool.errLine_eq e,
      AgentTool.make_agent_trace_take asvc aargs.endpoint aargs.agent_id
        aargs.prompt⟩
  · intro asvc aargs e ha hae
    obtain ⟨h1, h2, h3⟩ := AgentTool.list_agents_error_spec asvc
      aargs.endpoint e hae
    obtain ⟨h4, h5⟩ := AgentTool.agent_main_list_error asvc aargs e ha h1
    exact ⟨h1, h2, h4, h5, AgentTool.errLine_eq e, h3⟩
  · intro dsvc dargs e hd hde
    obtain ⟨h1, h2, h3⟩ := DirectTool.make_inference_error_spec dsvc
      dargs.endpoint dargs.api_key dargs.model dargs.prompt dargs.max_tokens
      dargs.temperature e hde
    obtain ⟨h4, h5⟩ := DirectTool.direct_main_error dsvc dargs e hd h1
    exact ⟨h1, h2, h4, h5, DirectTool.derrLine_eq e, h3⟩
  · intro dsvc dargs e hd hde
    obtain ⟨h1, h2⟩ := DirectTool.list_models_error_spec dsvc dargs.endpoint
      dargs.api_key e hde
    obtain ⟨h3, h4⟩ := DirectTool.direct_main_list_error dsvc dargs e hd h1
    exact ⟨h1, h2, h3, h4, DirectTool.derrLine_eq e,
      DirectTool.list_models_no_request dsvc dargs.endpoint dargs.api_key⟩

/-- Witness for C8 on concrete services whose client construction fails, in
inference mode and in listing mode of both tools. -/
theorem claim_error_propagation_witness :
    (AgentTool.wArgsListFalse.list_agents = false ∧
     AgentTool.agentCallError AgentTool.wFailAgentService
       AgentTool.wArgsListFalse.endpoint AgentTool.wArgsListFalse.agent_id
       AgentTool.wArgsListFalse.prompt = some "boom" ∧
     (AgentTool.make_agent_inference_request AgentTool.wFailAgentService
         AgentTool.wArgsListFalse.endpoint AgentTool.wArgsListFalse.agent_id
         AgentTool.wArgsListFalse.prompt).2.2 = Except.error "boom" ∧
     AgentTool.Output.text (AgentTool.errLine "boom")
       ∈ (AgentTool.make_agent_inference_request AgentTool.wFailAgentService
           AgentTool.wArgsListFalse.endpoint AgentTool.wArgsListFalse.agent_id
           AgentTool.wArgsListFalse.prompt).1 ∧
     (AgentTool.agent_main AgentTool.wFailAgentService
        AgentTool.wArgsListFalse).1 = 1 ∧
     AgentTool.Output.text (AgentTool.errLine "boom")
       ∈ (AgentTool.agent_main AgentTool.wFailAgentService
           AgentTool.wArgsListFalse).2.1 ∧
     AgentTool.errLine "boom" = "Error" ++ (": " ++ "boom") ∧
     (∃ tid n, (AgentTool.make_agent_inference_request
         AgentTool.wFailAgentService AgentTool.wArgsListFalse.endpoint
         AgentTool.wArgsListFalse.agent_id
         AgentTool.wArgsListFalse.prompt).2.1
       = (AgentTool.canonicalCalls tid AgentTool.wArgsListFalse.agent_id
           AgentTool.wArgsListFalse.prompt).take n)) ∧
    (AgentTool.wArgsListTrue.list_agents = true ∧
     AgentTool.agentListError AgentTool.wFailAgentService
       AgentTool.wArgsListTrue.endpoint = some "boom" ∧
     (AgentTool.list_agents AgentTool.wFailAgentService
         AgentTool.wArgsListTrue.endpoint).2.2 = Except.error "boom" ∧
     AgentTool.Output.text (AgentTool.errLine "boom")
       ∈ (AgentTool.list_agents AgentTool.wFailAgentService
           AgentTool.wArgsListTrue.endpoint).1 ∧
     (AgentTool.agent_main AgentTool.wFailAgentService
        AgentTool.wArgsListTrue).1 = 1 ∧
     AgentTool.Output.text (AgentTool.errLine "boom")
       ∈ (AgentTool.agent_main AgentTool.wFailAgentService
           AgentTool.wArgsListTrue).2.1 ∧
     AgentTool.errLine "boom" = "Error" ++ (": " ++ "boom") ∧
     (AgentTool.list_agents AgentTool.wFailAgentService
         AgentTool.wArgsListTrue.endpoint).2.1.length ≤ 1) ∧
    (DirectTool.wArgsModelsFalse.list_models = false ∧
     DirectTool.directCallError DirectTool.wFailCompletionService
       DirectTool.wArgsModelsFalse.endpoint
       DirectTool.wArgsModelsFalse.api_key DirectTool.wArgsModelsFalse.model
       DirectTool.wArgsModelsFalse.prompt
       DirectTool.wArgsModelsFalse.max_tokens
       DirectTool.wArgsModelsFalse.temperature = some "down" ∧
     (DirectTool.make_inference_request DirectTool.wFailCompletionService
         DirectTool.wArgsModelsFalse.endpoint
         DirectTool.wArgsModelsFalse.api_key DirectTool.wArgsModelsFalse.model
         DirectTool.wArgsModelsFalse.prompt
         DirectTool.wArgsModelsFalse.max_tokens
         DirectTool.wArgsModelsFalse.temperature).2.2 = Except.error "down" ∧
     DirectTool.DOutput.text (DirectTool.derrLine "down")
       ∈ (DirectTool.make_inference_request DirectTool.wFailCompletionService
           DirectTool.wArgsModelsFalse.endpoint
           DirectTool.wArgsModelsFalse.api_key
           DirectTool.wArgsModelsFalse.model
           DirectTool.wArgsModelsFalse.prompt
           DirectTool.wArgsModelsFalse.max_tokens
           DirectTool.wArgsModelsFalse.temperature).1 ∧
     (DirectTool.direct_main DirectTool.wFailCompletionService
        DirectTool.wArgsModelsFalse).1 = 1 ∧
     DirectTool.DOutput.text (DirectTool.derrLine "down")
       ∈ (DirectTool.direct_main DirectTool.wFailCompletionService
           DirectTool.wArgsModelsFalse).2.1 ∧
     DirectTool.derrLine "down" = "Error" ++ (": " ++ "down") ∧
     (DirectTool.make_inference_request DirectTool.wFailCompletionService
         DirectTool.wArgsModelsFalse.endpoint
         DirectTool.wArgsModelsFalse.api_key DirectTool.wArgsModelsFalse.model
         DirectTool.wArgsModelsFalse.prompt
         DirectTool.wArgsModelsFalse.max_tokens
         DirectTool.wArgsModelsFalse.temperature).2.1.length ≤ 1) ∧
    (DirectTool.wArgsModelsTrue.list_models = true ∧
     DirectTool.directListError DirectTool.wFailCompletionService
       DirectTool.wArgsModelsTrue.endpoint
       DirectTool.wArgsModelsTrue.api_key = some "down" ∧
     (DirectTool.list_models DirectTool.wFailCompletionService
         DirectTool.wArgsModelsTrue.endpoint
         DirectTool.wArgsModelsTrue.api_key).2.2 = Except.error "down" ∧
     DirectTool.DOutput.text (DirectTool.derrLine "down")
       ∈ (DirectTool.list_models DirectTool.wFailCompletionService
           DirectTool.wArgsModelsTrue.endpoint
           DirectTool.wArgsModelsTrue.api_key).1 ∧
     (DirectTool.direct_main DirectTool.wFailCompletionService
        DirectTool.wArgsModelsTrue).1 = 1 ∧
     DirectTool.DOutput.text (DirectTool.derrLine "down")
       ∈ (DirectTool.direct_main DirectTool.wFailCompletionService
           DirectTool.wArgsModelsTrue).2.1 ∧
     DirectTool.derrLine "down" = "Error" ++ (": " ++ "down") ∧
     (DirectTool.list_models DirectTool.wFailCompletionService
         DirectTool.wArgsModelsTrue.endpoint
         DirectTool.wArgsModelsTrue.api_key).2.1 = []) :=
  ⟨⟨rfl, rfl,
    claim_error_propagation.1 AgentTool.wFailAgentService
      AgentTool.wArgsListFalse "boom" rfl rfl⟩,
   ⟨rfl, rfl,
    claim_error_propagation.2.1 AgentTool.wFailAgentService
      AgentTool.wArgsListTrue "boom" rfl rfl⟩,
   ⟨rfl, rfl,
    claim_error_propagation.2.2.1 DirectTool.wFailCompletionService
      DirectTool.wArgsModelsFalse "down" rfl rfl⟩,
   ⟨rfl, rfl,
    claim_error_propagation.2.2.2 DirectTool.wFailCompletionService
      DirectTool.wArgsModelsTrue "down" rfl rfl⟩⟩
